import Mathlib

/-!
Shallow embedding of `src/index.js` of the german-flashcard-backend
repository: a single Express route handler `POST /translate` that
validates an input word, calls the Gemini generative-language API,
unwraps the nested generated-text field of the reply, parses it as
JSON and maps the fields into the response payload.

JavaScript values are modelled by `JVal` (JSON-representable values;
`undefined` is modelled as `none` at `Option JVal`).  The handler body
is `translateInner`, an `Except`-valued function where `.error ()`
models an exception thrown inside the `try` block; the route handler
`translate` wraps it with the `catch` clause that converts any thrown
exception into `500 {error: "Internal server error"}`.

The external world is passed in as arguments: the presence of the
`GEMINI_API_KEY` environment variable, the result of the `fetch` call
(`.error ()` models a transport-level rejection), and the runtime's
`JSON.parse` as a function `String → Option JVal` (`none` models a
`SyntaxError` being thrown).
-/

namespace GermanFlashcard

/-- A JSON-representable JavaScript value (numbers modelled as `Int`). -/
inductive JVal where
  | jnull : JVal
  | jbool : Bool → JVal
  | jnum : Int → JVal
  | jstr : String → JVal
  | jarr : List JVal → JVal
  | jobj : List (String × JVal) → JVal
deriving Repr

/-- JavaScript truthiness of a `JVal` (`undefined` is handled at `Option`). -/
def JVal.truthy : JVal → Bool
  | .jnull => false
  | .jbool b => b
  | .jnum n => n != 0
  | .jstr s => s != ""
  | .jarr _ => true
  | .jobj _ => true

/-- Truthiness of a possibly-`undefined` value (`none` = `undefined`, falsy). -/
def truthyOpt : Option JVal → Bool
  | none => false
  | some v => v.truthy

/-- Whether the value is JavaScript `null` (property access on it throws). -/
def JVal.isNull : JVal → Bool
  | .jnull => true
  | _ => false

/-- JavaScript property read `v.k` on a non-nullish value: defined keys of
objects, `undefined` (`none`) otherwise.  None of the keys the handler reads
(`candidates`, `content`, `parts`, `text`, `germanWord`, `englishTranslation`,
`details`) is a built-in property of primitives or arrays. -/
def JVal.getProp : JVal → String → Option JVal
  | .jobj fs, k => (fs.find? (fun p => p.1 == k)).map Prod.snd
  | _, _ => none

/-- JavaScript index read `v[i]` on a non-nullish value: array element,
object property named `toString i`, or single-character string. -/
def JVal.getIdx : JVal → Nat → Option JVal
  | .jarr xs, i => xs.get? i
  | .jobj fs, i => (fs.find? (fun p => p.1 == toString i)).map Prod.snd
  | .jstr s, i => (s.data.get? i).map (fun c => .jstr (String.mk [c]))
  | _, _ => none

/-- Optional chaining `v?.…`: `undefined` when `v` is nullish, else `f v`. -/
def optChain (v : Option JVal) (f : JVal → Option JVal) : Option JVal :=
  match v with
  | none => none
  | some .jnull => none
  | some x => f x

/-- The characters `String.prototype.trim` strips: ECMAScript WhiteSpace
(TAB, VT, FF, SP, NBSP, BOM and every Unicode Zs space separator: U+1680,
U+2000 through U+200A, U+202F, U+205F, U+3000) and LineTerminator (LF, CR,
LS, PS). -/
def jsIsWhitespace (c : Char) : Bool :=
  c == ' ' || c == '\t' || c == '\n' || c == '\r' ||
  c == '\u000B' || c == '\u000C' || c == '\u00A0' || c == '\uFEFF' ||
  c == '\u1680' || ('\u2000' ≤ c && c ≤ '\u200A') ||
  c == '\u202F' || c == '\u205F' || c == '\u3000' ||
  c == '\u2028' || c == '\u2029'

/-- JavaScript `s.trim()`: strip leading and trailing whitespace. -/
def jsTrim (s : String) : String :=
  String.mk ((((s.data.dropWhile jsIsWhitespace).reverse).dropWhile jsIsWhitespace).reverse)

/-- JavaScript string conversion (template literal / `String(v)`): arrays
join their elements with `","` (nullish elements render empty), plain
objects render `"[object Object]"`. -/
def jvalToString : JVal → String
  | .jnull => "null"
  | .jbool true => "true"
  | .jbool false => "false"
  | .jnum n => toString n
  | .jstr s => s
  | .jobj _ => "[object Object]"
  | .jarr xs => String.intercalate "," (xs.attach.map (fun x =>
      if x.1.isNull then "" else jvalToString x.1))
termination_by v => sizeOf v
decreasing_by
  simp_wf
  have := List.sizeOf_lt_of_mem x.2
  omega

/-- String conversion of a possibly-`undefined` value: `undefined` renders
as the string `"undefined"` inside a template literal. -/
def jsOptToString : Option JVal → String
  | none => "undefined"
  | some v => jvalToString v

@[simp] theorem jvalToString_jnull : jvalToString .jnull = "null" := by
  simp [jvalToString]

@[simp] theorem jvalToString_jstr (s : String) : jvalToString (.jstr s) = s := by
  simp [jvalToString]

/-! ### The fixed prompt and payload the handler builds (lines 28-51) -/

/-- `systemPrompt` (line 28). -/
def systemPrompt : String :=
  "You are a specialized German-English vocabulary expert. Your task is to provide the exact English translation and the German article/gender for a given German word. If the word is a noun, you MUST include the article (der, die, or das) and the plural form in parentheses. If it is a verb, include the infinitive form and, if possible, the past participle (e.g., gehen (ging, gegangen)). Provide the response as a clean JSON object following the schema."

/-- `userQuery` (line 30): the template literal embedding the raw word. -/
def userQuery (germanWord : String) : String :=
  "German word: " ++ germanWord

/-- `responseSchema` (lines 32-40). -/
def responseSchema : JVal :=
  .jobj
    [("type", .jstr "OBJECT"),
     ("properties", .jobj
       [("germanWord", .jobj
          [("type", .jstr "STRING"),
           ("description", .jstr "The exact German word entered, including article if applicable.")]),
        ("englishTranslation", .jobj
          [("type", .jstr "STRING"),
           ("description", .jstr "The primary, most accurate English translation.")]),
        ("details", .jobj
          [("type", .jstr "STRING"),
           ("description", .jstr "German grammar details (e.g., gender, plural, verb forms). Include the plural form in parentheses for nouns.")])]),
     ("required", .jarr [.jstr "germanWord", .jstr "englishTranslation", .jstr "details"])]

/-- `payload` (lines 42-51), as a function of the user query string. -/
def geminiPayload (query : String) : JVal :=
  .jobj
    [("contents", .jarr [.jobj [("parts", .jarr [.jobj [("text", .jstr query)]])]]),
     ("systemInstruction", .jobj [("parts", .jarr [.jobj [("text", .jstr systemPrompt)]])]),
     ("generationConfig", .jobj
       [("responseMimeType", .jstr "application/json"),
        ("responseSchema", responseSchema)])]

/-! ### The external call and the responses the handler sends -/

/-- The settled value of the `fetch` call: HTTP status, the body as text
(`await apiResponse.text()`), and the body parsed as JSON
(`await apiResponse.json()`; `.error ()` models the parse throwing). -/
structure ApiResponse where
  status : Nat
  text : String
  json : Except Unit JVal

/-- node-fetch `Response.ok`: status in the 2xx range. -/
def ApiResponse.ok (r : ApiResponse) : Bool :=
  200 ≤ r.status && r.status < 300

/-- An HTTP response sent by the handler: `res.status(…).json(body)`. -/
structure Response where
  status : Nat
  body : JVal
deriving Repr

/-- Line 22: `res.status(400).json({ error: 'germanWord is required' })`. -/
def validationErrorBody : JVal := .jobj [("error", .jstr "germanWord is required")]

/-- Line 57: the missing-credential body. -/
def misconfigBody : JVal :=
  .jobj [("error", .jstr "Server misconfiguration: API key missing")]

/-- Lines 74-78: the mirrored upstream-failure body. -/
def upstreamErrorBody (status : Nat) (details : String) : JVal :=
  .jobj [("error", .jstr "Gemini API call failed"),
         ("status", .jnum status),
         ("details", .jstr details)]

/-- Line 88: the structural-error body. -/
def invalidResponseBody : JVal :=
  .jobj [("error", .jstr "Invalid response from Gemini API")]

/-- Lines 98-101: the JSON-parse-failure body, carrying the raw generated text. -/
def parseFailBody (raw : JVal) : JVal :=
  .jobj [("error", .jstr "Failed to parse JSON from Gemini"), ("raw", raw)]

/-- Line 116: the catch-all body. -/
def internalErrorBody : JVal := .jobj [("error", .jstr "Internal server error")]

/-- Lines 108-112: the success body.  `res.json` serializes with
`JSON.stringify`, which drops a property whose value is `undefined`, so the
`english` property is omitted when `fullEnglish` is `undefined`. -/
def successBody (german : String) (english : Option JVal) (raw : JVal) : JVal :=
  .jobj ([("german", .jstr german)] ++
    (match english with
     | none => []
     | some e => [("english", e)]) ++
    [("raw", raw)])

/-! ### The candidate extraction (lines 85-91) -/

/-- Lines 85-91: `result.candidates?.[0]` and the guard
`!candidate || !candidate.content?.parts?.[0]?.text`; yields the truthy
generated-text value when the guard passes, `none` when the handler answers
`500 {error: "Invalid response from Gemini API"}`.  The caller must ensure
`result` is not `null` (reading `.candidates` on `null` throws). -/
def extractGeneratedText (result : JVal) : Option JVal :=
  let candidate := optChain (result.getProp "candidates") (fun c => c.getIdx 0)
  match candidate with
  | none => none
  | some c =>
    if !c.truthy then none
    else
      let t := optChain (optChain (optChain (c.getProp "content")
        (fun x => x.getProp "parts")) (fun x => x.getIdx 0)) (fun x => x.getProp "text")
      if truthyOpt t then t else none

/-! ### The handler -/

/-- Lines 104-112: build the success payload from `parsedData`.  Reading
`parsedData.germanWord` on JavaScript `null` throws (`.error ()`); on any
other value the two template-literal reads render `undefined` as the string
`"undefined"`. -/
def mapStep (parsedData : JVal) : Except Unit Response :=
  if parsedData.isNull then .error ()
  else .ok ⟨200, successBody
    (jsOptToString (parsedData.getProp "germanWord") ++ "\n\n(" ++
      jsOptToString (parsedData.getProp "details") ++ ")")
    (parsedData.getProp "englishTranslation")
    parsedData⟩

/-- Lines 93-102: `JSON.parse(jsonText)` (which first converts its argument
to a string) inside its own `try`/`catch`; a parse failure answers 500 with
the raw generated text attached. -/
def parseStep (jsonText : JVal) (jsonParse : String → Option JVal) :
    Except Unit Response :=
  match jsonParse (jvalToString jsonText) with
  | none => .ok ⟨500, parseFailBody jsonText⟩
  | some parsedData => mapStep parsedData

/-- Lines 84-91: the candidate extraction; a missing or falsy nested text
field answers `500 {error: "Invalid response from Gemini API"}`.  The
caller has ensured `result` is not `null`. -/
def extractStep (result : JVal) (jsonParse : String → Option JVal) :
    Except Unit Response :=
  match extractGeneratedText result with
  | none => .ok ⟨500, invalidResponseBody⟩
  | some jsonText => parseStep jsonText jsonParse

/-- Line 81 and onwards: `await apiResponse.json()` (throwing when the body
is not JSON), then `result.candidates` — a property read that throws when
`result` is `null`. -/
def bodyStep (json : Except Unit JVal) (jsonParse : String → Option JVal) :
    Except Unit Response :=
  match json with
  | .error _ => .error ()
  | .ok result =>
    if result.isNull then .error ()
    else extractStep result jsonParse

/-- Lines 65-79: the settled `fetch` call (a transport rejection throws);
a non-2xx reply mirrors the upstream status with `{error, status, details}`. -/
def fetchStep (fetchResult : Except Unit ApiResponse)
    (jsonParse : String → Option JVal) : Except Unit Response :=
  match fetchResult with
  | .error _ => .error ()
  | .ok r =>
    if !r.ok then .ok ⟨r.status, upstreamErrorBody r.status r.text⟩
    else bodyStep r.json jsonParse

/-- Lines 54-58: the `GEMINI_API_KEY` presence check (`!apiKey` is truthy
for a missing variable and for the empty string). -/
def apiKeyStep (apiKey : Option String) (fetchResult : Except Unit ApiResponse)
    (jsonParse : String → Option JVal) : Except Unit Response :=
  match apiKey with
  | none => .ok ⟨500, misconfigBody⟩
  | some k =>
    if k = "" then .ok ⟨500, misconfigBody⟩
    else fetchStep fetchResult jsonParse

/-- The body of the `try` block of the `/translate` handler (lines 17-112).
`gw` is `req.body.germanWord` (`none` = field absent), `apiKey` is
`process.env.GEMINI_API_KEY`, `fetchResult` the settled external call and
`jsonParse` the runtime's `JSON.parse` (`none` models a `SyntaxError`).
`.error ()` models an exception propagating to the `catch` clause:
`germanWord.trim` missing on a truthy non-string (`if (!germanWord ||
!germanWord.trim())`, line 21), a `fetch` rejection, `apiResponse.json()`
failing, or a property read on `null`. -/
def translateInner (gw : Option JVal) (apiKey : Option String)
    (fetchResult : Except Unit ApiResponse) (jsonParse : String → Option JVal) :
    Except Unit Response :=
  if !truthyOpt gw then .ok ⟨400, validationErrorBody⟩
  else match gw with
    | some (.jstr s) =>
      if jsTrim s = "" then .ok ⟨400, validationErrorBody⟩
      else apiKeyStep apiKey fetchResult jsonParse
    | _ => .error ()

/-- The whole handler: the `try`/`catch` boundary (lines 16-118).  Any
exception raised inside the `try` block is converted into
`500 {error: "Internal server error"}`. -/
def translate (gw : Option JVal) (apiKey : Option String)
    (fetchResult : Except Unit ApiResponse) (jsonParse : String → Option JVal) :
    Response :=
  match translateInner gw apiKey fetchResult jsonParse with
  | .ok r => r
  | .error _ => ⟨500, internalErrorBody⟩

/-! ### Concrete fixtures used by witnesses and counterexamples -/

/-- A well-shaped Gemini reply body whose single candidate carries the
generated text `t`: `{candidates: [{content: {parts: [{text: t}]}}]}`. -/
def geminiReply (t : String) : JVal :=
  let part : JVal := .jobj [("text", .jstr t)]
  let content : JVal := .jobj [("parts", .jarr [part])]
  let candidate : JVal := .jobj [("content", content)]
  .jobj [("candidates", .jarr [candidate])]

/-- The fields of the spec's round-trip mock `TranslationResult`. -/
def mockFields : List (String × JVal) :=
  [("germanWord", .jstr "das Haus"),
   ("englishTranslation", .jstr "the house"),
   ("details", .jstr "die Häuser")]

/-! ### Helper lemmas -/

theorem jsTrim_empty : jsTrim "" = "" := rfl

theorem ne_empty_of_jsTrim_ne {s : String} (h : jsTrim s ≠ "") : s ≠ "" := by
  rintro rfl
  exact h jsTrim_empty

theorem isNull_eq_false {v : JVal} (h : v ≠ .jnull) : v.isNull = false := by
  cases v <;> simp_all [JVal.isNull]

theorem extractGeneratedText_jnull : extractGeneratedText .jnull = none := rfl

theorem ne_jnull_of_extract_some {result : JVal} {v : JVal}
    (h : extractGeneratedText result = some v) : result ≠ .jnull := by
  rintro rfl
  rw [extractGeneratedText_jnull] at h
  exact Option.noConfusion h

theorem paren_of_empty_details (g : String) : g ++ "\n\n(" ++ "" ++ ")" = g ++ "\n\n()" := by
  rw [String.append_empty, String.append_assoc]
  have h : "\n\n(" ++ ")" = "\n\n()" := by decide
  rw [h]

/-- Unfolding of the handler on a well-formed word, a present key and a
settled 2xx external reply whose body parsed to a non-null value: control
reaches the candidate extraction of lines 84-91. -/
theorem translateInner_ok (s : String) (hs : jsTrim s ≠ "") (k : String) (hk : k ≠ "")
    (r : ApiResponse) (hok : r.ok = true) (result : JVal) (hjson : r.json = Except.ok result)
    (hnn : result ≠ .jnull) (jp : String → Option JVal) :
    translateInner (some (.jstr s)) (some k) (.ok r) jp = extractStep result jp := by
  have hs0 : s ≠ "" := ne_empty_of_jsTrim_ne hs
  have h1 : (!truthyOpt (some (.jstr s))) = false := by
    simp [truthyOpt, JVal.truthy, hs0]
  simp only [translateInner, h1, Bool.false_eq_true, if_false, ne_eq, hs, ite_false,
    apiKeyStep, hk, fetchStep, hok, Bool.not_true, bodyStep, hjson, isNull_eq_false hnn]

theorem translate_eq_of_inner {gw : Option JVal} {apiKey : Option String}
    {f : Except Unit ApiResponse} {jp : String → Option JVal} {x : Response}
    (h : translateInner gw apiKey f jp = .ok x) : translate gw apiKey f jp = x := by
  rw [translate, h]

/-! ### The claims -/

/-- C1: for every well-formed (non-empty after trimming) word, a present
key and a 2xx external reply whose nested generated text parses as a JSON
object with string fields `germanWord`, `englishTranslation` and `details`,
the handler answers 200 with `german = "<germanWord>\n\n(<details>)"`,
`english = <englishTranslation>` verbatim and `raw` the parsed object
unchanged. -/
theorem C1_success_mapping (s : String) (hs : jsTrim s ≠ "") (k : String) (hk : k ≠ "")
    (r : ApiResponse) (hok : r.ok = true) (result : JVal) (hjson : r.json = Except.ok result)
    (t : String) (hext : extractGeneratedText result = some (.jstr t))
    (jp : String → Option JVal) (fields : List (String × JVal))
    (hparse : jp t = some (.jobj fields)) (g e d : String)
    (hg : (JVal.jobj fields).getProp "germanWord" = some (.jstr g))
    (he : (JVal.jobj fields).getProp "englishTranslation" = some (.jstr e))
    (hd : (JVal.jobj fields).getProp "details" = some (.jstr d)) :
    translate (some (.jstr s)) (some k) (.ok r) jp =
      ⟨200, .jobj [("german", .jstr (g ++ "\n\n(" ++ d ++ ")")),
                   ("english", .jstr e),
                   ("raw", .jobj fields)]⟩ := by
  have hrn : result ≠ .jnull := ne_jnull_of_extract_some hext
  apply translate_eq_of_inner
  rw [translateInner_ok s hs k hk r hok result hjson hrn jp]
  simp only [extractStep, hext, parseStep, jvalToString_jstr, hparse, mapStep, JVal.isNull,
    Bool.false_eq_true, if_false, ite_false, successBody, jsOptToString, hg, he, hd,
    List.cons_append, List.nil_append, List.singleton_append]

/-- C1 witness: the spec's round-trip mock reply
`{germanWord: "das Haus", englishTranslation: "the house", details: "die Häuser"}`
produces `{german: "das Haus\n\n(die Häuser)", english: "the house", raw: …}`. -/
theorem C1_success_mapping_witness :
    translate (some (.jstr "Haus")) (some "key")
      (.ok ⟨200, "ok", Except.ok (geminiReply "mock")⟩)
      (fun t => if t = "mock" then some (.jobj mockFields) else none) =
      ⟨200, .jobj [("german", .jstr "das Haus\n\n(die Häuser)"),
                   ("english", .jstr "the house"),
                   ("raw", .jobj mockFields)]⟩ := by
  have h := C1_success_mapping "Haus" (by decide) "key" (by decide)
    ⟨200, "ok", Except.ok (geminiReply "mock")⟩ rfl (geminiReply "mock") rfl "mock" rfl
    (fun t => if t = "mock" then some (.jobj mockFields) else none) mockFields rfl
    "das Haus" "the house" "die Häuser" rfl rfl rfl
  simpa using h

/-- C2: a request whose `germanWord` is absent, empty or whitespace-only is
answered 400 with `{error: "germanWord is required"}`, whatever the key, the
external world and the JSON parser would do (no external call is made). -/
theorem C2_validation_rejects (gw : Option JVal)
    (hgw : gw = none ∨ ∃ s, gw = some (.jstr s) ∧ jsTrim s = "")
    (apiKey : Option String) (f : Except Unit ApiResponse) (jp : String → Option JVal) :
    translate gw apiKey f jp = ⟨400, validationErrorBody⟩ := by
  rcases hgw with rfl | ⟨s, rfl, hs⟩
  · rfl
  · by_cases h0 : s = ""
    · subst h0; rfl
    · apply translate_eq_of_inner
      simp [translateInner, truthyOpt, JVal.truthy, h0, hs]

/-- C2 witness: a whitespace-only word (ordinary whitespace plus the
ideographic space U+3000 and the en quad U+2000) is rejected even though
the key is present and the external world would have answered. -/
theorem C2_validation_rejects_witness :
    translate (some (.jstr " \t\n\u3000\u2000 ")) (some "key")
      (.ok ⟨200, "ok", Except.ok .jnull⟩) (fun _ => none) = ⟨400, validationErrorBody⟩ :=
  C2_validation_rejects _ (Or.inr ⟨" \t\n\u3000\u2000 ", rfl, by decide⟩) _ _ _

/-- C3: a valid word with the `GEMINI_API_KEY` variable absent is answered
500 `{error: "Server misconfiguration: API key missing"}`, whatever the
external world would do (no external call is made). -/
theorem C3_missing_api_key (s : String) (hs : jsTrim s ≠ "")
    (f : Except Unit ApiResponse) (jp : String → Option JVal) :
    translate (some (.jstr s)) none f jp = ⟨500, misconfigBody⟩ := by
  have hs0 : s ≠ "" := ne_empty_of_jsTrim_ne hs
  apply translate_eq_of_inner
  simp [translateInner, truthyOpt, JVal.truthy, hs0, hs, apiKeyStep]

/-- C3 witness. -/
theorem C3_missing_api_key_witness :
    translate (some (.jstr "Haus")) none (.error ()) (fun _ => none) =
      ⟨500, misconfigBody⟩ :=
  C3_missing_api_key "Haus" (by decide) _ _

/-- C4: a non-2xx external reply of status `S` is mirrored: the handler
answers status `S` with body `{error, status: S, details: <reply text>}`. -/
theorem C4_upstream_mirrored (s : String) (hs : jsTrim s ≠ "") (k : String) (hk : k ≠ "")
    (r : ApiResponse) (hst : r.status < 200 ∨ 300 ≤ r.status) (jp : String → Option JVal) :
    translate (some (.jstr s)) (some k) (.ok r) jp =
      ⟨r.status, upstreamErrorBody r.status r.text⟩ := by
  have hok : r.ok = false := by
    rw [ApiResponse.ok]
    rcases hst with h | h
    · have h2 : ¬ (200 ≤ r.status) := by omega
      simp [h2]
    · have h2 : ¬ (r.status < 300) := by omega
      simp [h2]
  have hs0 : s ≠ "" := ne_empty_of_jsTrim_ne hs
  apply translate_eq_of_inner
  simp [translateInner, truthyOpt, JVal.truthy, hs0, hs, apiKeyStep, hk, fetchStep, hok]

/-- C4 witness: a 429 reply is mirrored with `status: 429` in the body. -/
theorem C4_upstream_mirrored_witness :
    translate (some (.jstr "Haus")) (some "key")
      (.ok ⟨429, "quota exceeded", Except.error ()⟩) (fun _ => none) =
      ⟨429, upstreamErrorBody 429 "quota exceeded"⟩ :=
  C4_upstream_mirrored "Haus" (by decide) "key" (by decide) _ (Or.inr (by decide)) _

/-- C5 counterexample: a 2xx reply whose JSON body is `null` lacks the
nested generated-text field at the very first level, yet the handler's
answer is the catch-all `{error: "Internal server error"}` (the read
`result.candidates` throws), not `{error: "Invalid response from Gemini
API"}` as the claim states. -/
theorem C5_counterexample :
    extractGeneratedText .jnull = none ∧
    translate (some (.jstr "Haus")) (some "key")
      (.ok ⟨200, "ok", Except.ok .jnull⟩) (fun _ => none) = ⟨500, internalErrorBody⟩ ∧
    internalErrorBody ≠ invalidResponseBody := by
  refine ⟨rfl, rfl, ?_⟩
  simp [internalErrorBody, invalidResponseBody]

/-- C5 amended: for every 2xx reply whose JSON body is not `null` and lacks
the nested generated-text field at any expected nesting level, the handler
answers 500 `{error: "Invalid response from Gemini API"}`. -/
theorem C5_structural_error (s : String) (hs : jsTrim s ≠ "") (k : String) (hk : k ≠ "")
    (r : ApiResponse) (hok : r.ok = true) (result : JVal)
    (hjson : r.json = Except.ok result) (hnn : result ≠ .jnull)
    (hext : extractGeneratedText result = none) (jp : String → Option JVal) :
    translate (some (.jstr s)) (some k) (.ok r) jp = ⟨500, invalidResponseBody⟩ := by
  apply translate_eq_of_inner
  rw [translateInner_ok s hs k hk r hok result hjson hnn jp]
  simp only [extractStep, hext]

/-- C5 amended witness: a 2xx reply whose body is the empty object. -/
theorem C5_structural_error_witness :
    translate (some (.jstr "Haus")) (some "key")
      (.ok ⟨200, "ok", Except.ok (.jobj [])⟩) (fun _ => none) =
      ⟨500, invalidResponseBody⟩ :=
  C5_structural_error "Haus" (by decide) "key" (by decide)
    ⟨200, "ok", Except.ok (.jobj [])⟩ rfl (.jobj []) rfl
    (fun h => JVal.noConfusion h) rfl _

/-- C6: when the nested generated text is present but does not parse as
JSON, the handler answers 500 with the raw unparsed text attached
unchanged: `{error: "Failed to parse JSON from Gemini", raw: <text>}`. -/
theorem C6_parse_failure_raw (s : String) (hs : jsTrim s ≠ "") (k : String) (hk : k ≠ "")
    (r : ApiResponse) (hok : r.ok = true) (result : JVal)
    (hjson : r.json = Except.ok result) (t : String)
    (hext : extractGeneratedText result = some (.jstr t))
    (jp : String → Option JVal) (hparse : jp t = none) :
    translate (some (.jstr s)) (some k) (.ok r) jp = ⟨500, parseFailBody (.jstr t)⟩ := by
  have hrn : result ≠ .jnull := ne_jnull_of_extract_some hext
  apply translate_eq_of_inner
  rw [translateInner_ok s hs k hk r hok result hjson hrn jp]
  simp only [extractStep, hext, parseStep, jvalToString_jstr, hparse]

/-- C6 witness: generated text `"oops"` fails to parse and is echoed raw. -/
theorem C6_parse_failure_raw_witness :
    translate (some (.jstr "Haus")) (some "key")
      (.ok ⟨200, "ok", Except.ok (geminiReply "oops")⟩) (fun _ => none) =
      ⟨500, parseFailBody (.jstr "oops")⟩ :=
  C6_parse_failure_raw "Haus" (by decide) "key" (by decide)
    ⟨200, "ok", Except.ok (geminiReply "oops")⟩ rfl (geminiReply "oops") rfl
    "oops" rfl _ rfl

/-- C7: every exception thrown inside the `try` block (anything that makes
the inner handler end in `.error`) is caught at the single `try`/`catch`
boundary and answered 500 `{error: "Internal server error"}`; the handler
is a total function, so no exception escapes it. -/
theorem C7_catch_all (gw : Option JVal) (apiKey : Option String)
    (f : Except Unit ApiResponse) (jp : String → Option JVal)
    (h : translateInner gw apiKey f jp = .error ()) :
    translate gw apiKey f jp = ⟨500, internalErrorBody⟩ := by
  rw [translate, h]

/-- C7 witness: a transport-level `fetch` rejection is such an exception. -/
theorem C7_catch_all_witness :
    translateInner (some (.jstr "Haus")) (some "key") (.error ()) (fun _ => none) =
      .error () ∧
    translate (some (.jstr "Haus")) (some "key") (.error ()) (fun _ => none) =
      ⟨500, internalErrorBody⟩ :=
  ⟨rfl, C7_catch_all _ _ _ _ rfl⟩

/-- C8: a truthy non-string `germanWord` (a number, an object, …) passes the
falsiness test, but `germanWord.trim()` throws, so the handler answers the
catch-all 500 `{error: "Internal server error"}`, not the 400 validation
error. -/
theorem C8_nonstring_trim_throws (v : JVal) (htr : v.truthy = true)
    (hns : ∀ s, v ≠ .jstr s) (apiKey : Option String)
    (f : Except Unit ApiResponse) (jp : String → Option JVal) :
    translate (some v) apiKey f jp = ⟨500, internalErrorBody⟩ := by
  cases v
  case jnull => simp [JVal.truthy] at htr
  case jstr s => exact absurd rfl (hns s)
  all_goals
    rw [translate, translateInner]
    simp only [truthyOpt, htr, Bool.not_true, Bool.false_eq_true, if_false, ite_false]
    intro s h
    exact JVal.noConfusion (Option.some.inj h)

/-- C8 witness: the number `5` as `germanWord`. -/
theorem C8_nonstring_trim_throws_witness :
    translate (some (.jnum 5)) (some "key")
      (.ok ⟨200, "ok", Except.ok .jnull⟩) (fun _ => none) = ⟨500, internalErrorBody⟩ :=
  C8_nonstring_trim_throws (.jnum 5) (by decide) (fun s h => JVal.noConfusion h) _ _ _

/-- C9 counterexample: the parsed generated text `null` lacks all three
required fields, yet the handler answers the catch-all 500 (reading
`parsedData.germanWord` on `null` throws), not status 200 as the claim
states for every parsed value lacking a field. -/
theorem C9_counterexample :
    JVal.getProp .jnull "germanWord" = none ∧
    JVal.getProp .jnull "englishTranslation" = none ∧
    JVal.getProp .jnull "details" = none ∧
    translate (some (.jstr "Haus")) (some "key")
      (.ok ⟨200, "ok", Except.ok (geminiReply "null")⟩)
      (fun t => if t = "null" then some .jnull else none) = ⟨500, internalErrorBody⟩ ∧
    (Response.mk 500 internalErrorBody).status ≠ 200 := by
  refine ⟨rfl, rfl, rfl, ?_, by decide⟩
  simp [translate, translateInner, truthyOpt, JVal.truthy, apiKeyStep, fetchStep,
    bodyStep, extractStep, parseStep, mapStep, geminiReply, extractGeneratedText,
    optChain, JVal.getProp, JVal.getIdx, JVal.isNull, ApiResponse.ok, jsTrim,
    jsIsWhitespace]

/-- C9 amended: for every parsed generated-text value other than `null`, no
schema check is performed: even when a required field is missing the handler
answers 200, rendering each missing field as the string `"undefined"`
inside `german` and omitting `english` when `englishTranslation` is
missing. -/
theorem C9_no_schema_enforcement (s : String) (hs : jsTrim s ≠ "") (k : String)
    (hk : k ≠ "") (r : ApiResponse) (hok : r.ok = true) (result : JVal)
    (hjson : r.json = Except.ok result) (t : String)
    (hext : extractGeneratedText result = some (.jstr t)) (jp : String → Option JVal)
    (parsed : JVal) (hparse : jp t = some parsed) (hnn : parsed ≠ .jnull)
    (_hlack : parsed.getProp "germanWord" = none ∨
      parsed.getProp "englishTranslation" = none ∨
      parsed.getProp "details" = none) :
    translate (some (.jstr s)) (some k) (.ok r) jp =
      ⟨200, successBody
        (jsOptToString (parsed.getProp "germanWord") ++ "\n\n(" ++
          jsOptToString (parsed.getProp "details") ++ ")")
        (parsed.getProp "englishTranslation") parsed⟩ ∧
    jsOptToString (none : Option JVal) = "undefined" := by
  refine ⟨?_, rfl⟩
  have hrn : result ≠ .jnull := ne_jnull_of_extract_some hext
  apply translate_eq_of_inner
  rw [translateInner_ok s hs k hk r hok result hjson hrn jp]
  simp only [extractStep, hext, parseStep, jvalToString_jstr, hparse, mapStep,
    isNull_eq_false hnn, Bool.false_eq_true, if_false, ite_false]

/-- C9 amended witness: the parsed empty object `{}` yields 200 with
`german = "undefined\n\n(undefined)"` and no `english` property. -/
theorem C9_no_schema_enforcement_witness :
    translate (some (.jstr "Haus")) (some "key")
      (.ok ⟨200, "ok", Except.ok (geminiReply "{}")⟩) (fun _ => some (.jobj [])) =
      ⟨200, .jobj [("german", .jstr "undefined\n\n(undefined)"), ("raw", .jobj [])]⟩ ∧
    jsOptToString (none : Option JVal) = "undefined" := by
  have h := C9_no_schema_enforcement "Haus" (by decide) "key" (by decide)
    ⟨200, "ok", Except.ok (geminiReply "{}")⟩ rfl (geminiReply "{}") rfl "{}" rfl
    (fun _ => some (.jobj [])) (.jobj []) rfl (fun h => JVal.noConfusion h)
    (Or.inl rfl)
  refine ⟨?_, h.2⟩
  have h1 := h.1
  simpa [successBody, jsOptToString, JVal.getProp] using h1

/-- C10: the concatenation of `details` into `german` is unconditional:
when the parsed `details` field is the empty string the handler answers 200
with `german = "<germanWord>\n\n()"` (empty parentheses). -/
theorem C10_empty_details_parens (s : String) (hs : jsTrim s ≠ "") (k : String)
    (hk : k ≠ "") (r : ApiResponse) (hok : r.ok = true) (result : JVal)
    (hjson : r.json = Except.ok result) (t : String)
    (hext : extractGeneratedText result = some (.jstr t)) (jp : String → Option JVal)
    (parsed : JVal) (hparse : jp t = some parsed) (g : String)
    (hg : parsed.getProp "germanWord" = some (.jstr g))
    (hd : parsed.getProp "details" = some (.jstr "")) :
    translate (some (.jstr s)) (some k) (.ok r) jp =
      ⟨200, successBody (g ++ "\n\n()") (parsed.getProp "englishTranslation") parsed⟩ := by
  have hrn : result ≠ .jnull := ne_jnull_of_extract_some hext
  have hnn : parsed ≠ .jnull := by
    rintro rfl
    simp [JVal.getProp] at hg
  apply translate_eq_of_inner
  rw [translateInner_ok s hs k hk r hok result hjson hrn jp]
  simp only [extractStep, hext, parseStep, jvalToString_jstr, hparse, mapStep,
    isNull_eq_false hnn, Bool.false_eq_true, if_false, ite_false, jsOptToString, hg, hd,
    paren_of_empty_details]

/-- C10 witness: `details = ""` produces `german = "das Haus\n\n()"`. -/
theorem C10_empty_details_parens_witness :
    translate (some (.jstr "Haus")) (some "key")
      (.ok ⟨200, "ok", Except.ok (geminiReply "mock2")⟩)
      (fun t => if t = "mock2" then
        some (.jobj [("germanWord", .jstr "das Haus"), ("details", .jstr "")]) else none) =
      ⟨200, .jobj [("german", .jstr "das Haus\n\n()"),
                   ("raw", .jobj [("germanWord", .jstr "das Haus"),
                                  ("details", .jstr "")])]⟩ := by
  have h := C10_empty_details_parens "Haus" (by decide) "key" (by decide)
    ⟨200, "ok", Except.ok (geminiReply "mock2")⟩ rfl (geminiReply "mock2") rfl "mock2" rfl
    (fun t => if t = "mock2" then
      some (.jobj [("germanWord", .jstr "das Haus"), ("details", .jstr "")]) else none)
    (.jobj [("germanWord", .jstr "das Haus"), ("details", .jstr "")]) rfl "das Haus" rfl rfl
  simpa [successBody, JVal.getProp] using h

end GermanFlashcard
